import Mathlib

/-!
Shallow embedding of `src/hardware/RoombaOI.py` (Roomba-for-Scratch):
the Open Interface command catalog, the mode-guarded session class
`RoombaOI`, and its payload encoders.

Python semantics made explicit in the embedding:
* machine bytes are `Nat`, with the source's clamping written out;
* Python `%` on integers is `Int.emod` (result has the sign of the divisor);
* a raised exception is recorded in `SendResult.error`; an exception
  leaves `self` unchanged, so the `state` field then keeps the old
  session state and `sent = none` records that nothing was handed to the
  transport;
* `int.to_bytes(2, 'big')` is partial: it raises `OverflowError` outside
  `[0, 65535]`, which `int_to_bytes_2_be` models by returning `none`;
* `list.extend(x)` with a non-iterable `x` raises `TypeError`, which the
  `Extra.int` case of `Extra.tail_bytes` models by returning `none`.
-/

namespace Roomba

/-- Modes of the Open Interface, from the source's `Mode(IntEnum)`;
`NoChange` is the catalog sentinel (value `-1`) and never a real state. -/
inductive Mode where
  | NoChange
  | Off
  | Passive
  | Safe
  | Full
deriving DecidableEq, Fintype

/-- Days of the week, from the source's `Weekday(IntEnum)` (values 0-6). -/
inductive Weekday where
  | Sunday
  | Monday
  | Tuesday
  | Wednesday
  | Thursday
  | Friday
  | Saturday
deriving DecidableEq, Fintype

/-- Numeric value of a `Weekday`, as in the source's `IntEnum`. -/
def Weekday.value : Weekday → Nat
  | .Sunday => 0
  | .Monday => 1
  | .Tuesday => 2
  | .Wednesday => 3
  | .Thursday => 4
  | .Friday => 5
  | .Saturday => 6

/-- Baud-rate codes, from the source's `BaudRate(IntEnum)` (values 0-11). -/
inductive BaudRate where
  | Baud300
  | Baud600
  | Baud1200
  | Baud2400
  | Baud4800
  | Baud9600
  | Baud14400
  | Baud19200
  | Baud28800
  | Baud38400
  | Baud57600
  | Baud115200
deriving DecidableEq, Fintype

/-- Numeric value of a `BaudRate` code, as in the source's `IntEnum`. -/
def BaudRate.value : BaudRate → Nat
  | .Baud300 => 0
  | .Baud600 => 1
  | .Baud1200 => 2
  | .Baud2400 => 3
  | .Baud4800 => 4
  | .Baud9600 => 5
  | .Baud14400 => 6
  | .Baud19200 => 7
  | .Baud28800 => 8
  | .Baud38400 => 9
  | .Baud57600 => 10
  | .Baud115200 => 11

/-- Identities of the OI commands defined in the source's `Command(Enum)`. -/
inductive Command where
  | Start
  | Baud
  | Control
  | Safe
  | Full
  | Power
  | Spot
  | Clean
  | Max
  | Drive
  | Motors
  | Song
  | Play
  | Dock
  | PwmMotors
  | DirDrive
  | PwmDrive
  | Schedule
  | SetClock
deriving DecidableEq, Fintype

/-- Catalog field `command.value[0]`: modes in which the command may be
issued. -/
def Command.allowed_modes : Command → List Mode
  | .Start => [.Off, .Passive, .Safe, .Full]
  | .Baud => [.Passive, .Safe, .Full]
  | .Control => [.Passive, .Safe, .Full]
  | .Safe => [.Passive, .Safe, .Full]
  | .Full => [.Passive, .Safe, .Full]
  | .Power => [.Passive, .Safe, .Full]
  | .Spot => [.Passive, .Safe, .Full]
  | .Clean => [.Passive, .Safe, .Full]
  | .Max => [.Passive, .Safe, .Full]
  | .Drive => [.Safe, .Full]
  | .Motors => [.Safe, .Full]
  | .Song => [.Passive, .Safe, .Full]
  | .Play => [.Safe, .Full]
  | .Dock => [.Passive, .Safe, .Full]
  | .PwmMotors => [.Safe, .Full]
  | .DirDrive => [.Safe, .Full]
  | .PwmDrive => [.Safe, .Full]
  | .Schedule => [.Passive, .Safe, .Full]
  | .SetClock => [.Passive, .Safe, .Full]

/-- Catalog field `command.value[1]`: the mode the OI switches into after
the command, or the `NoChange` sentinel. -/
def Command.new_mode : Command → Mode
  | .Start => .Passive
  | .Baud => .NoChange
  | .Control => .Safe
  | .Safe => .Safe
  | .Full => .Full
  | .Power => .Passive
  | .Spot => .Passive
  | .Clean => .Passive
  | .Max => .Passive
  | .Drive => .NoChange
  | .Motors => .NoChange
  | .Song => .NoChange
  | .Play => .NoChange
  | .Dock => .Passive
  | .PwmMotors => .NoChange
  | .DirDrive => .NoChange
  | .PwmDrive => .NoChange
  | .Schedule => .NoChange
  | .SetClock => .NoChange

/-- Catalog field `command.value[2]`: opcode byte followed by the
zero-filled argument template. -/
def Command.byte_template : Command → List Nat
  | .Start => [128]
  | .Baud => [129, 0]
  | .Control => [130]
  | .Safe => [131]
  | .Full => [132]
  | .Power => [133]
  | .Spot => [134]
  | .Clean => [135]
  | .Max => [136]
  | .Drive => [137, 0, 0, 0, 0]
  | .Motors => [138, 0]
  | .Song => [140, 0, 0, 0, 0, 0, 0, 0, 0, 0, 0, 0, 0, 0, 0, 0, 0,
              0, 0, 0, 0, 0, 0, 0, 0, 0, 0, 0, 0, 0, 0, 0, 0, 0, 0]
  | .Play => [141, 0]
  | .Dock => [143]
  | .PwmMotors => [144, 0, 0, 0]
  | .DirDrive => [145, 0, 0, 0, 0]
  | .PwmDrive => [146, 0, 0, 0, 0]
  | .Schedule => [167, 0, 0, 0, 0, 0, 0, 0, 0, 0, 0, 0, 0, 0, 0, 0]
  | .SetClock => [168, 0, 0, 0]

/-- Opcode of a command: `command.value[2][0]` in the source. -/
def Command.opcode (c : Command) : Nat := c.byte_template.headD 0

/-- Session state of the `RoombaOI` class: its `current_mode` field, plus
the transport's (`comm_device`) mutable `baudrate` property, the one
piece of transport state the class writes. -/
structure RoombaOI where
  current_mode : Mode
  baudrate : Nat
deriving DecidableEq

/-- Exceptions the source can raise, with the data interpolated into their
messages: `modeViolation` is the `ValueError` of `send_command` (carrying
`command.name` and `self.current_mode`), `invalidMode` the `ValueError`
of `set_mode`, the three song errors the `ValueError`s of `set_song`,
`typeError` Python's `TypeError` from iterating a non-iterable, and
`overflowError` Python's `OverflowError` from `int.to_bytes`. -/
inductive PyErr where
  | modeViolation (command : Command) (mode : Mode)
  | invalidMode
  | lengthMismatch
  | emptyInput
  | tooManyNotes
  | typeError
  | overflowError
deriving DecidableEq

/-- Possible values of `send_command`'s `extra` argument as used in the
source: the default `None`, a list of ints, or (in the buggy
`set_baud_rate` call) a bare int. -/
inductive Extra where
  | none
  | list (xs : List Int)
  | int (n : Int)
deriving DecidableEq

/-- Result of `payload.extend(extra)` preceded by the `extra is not None`
guard: the bytes appended after the opcode, or `none` when Python would
raise `TypeError` because `extra` is a non-iterable int. -/
def Extra.tail_bytes : Extra → Option (List Int)
  | .none => Option.some []
  | .list xs => Option.some xs
  | .int _ => Option.none

/-- Observable outcome of one method call on the session: the session
state afterwards (unchanged when an exception was raised), the bytes
passed to `comm_device.send` (or `none` when no write was attempted), and
the exception propagated to the caller (or `none`). -/
structure SendResult where
  state : RoombaOI
  sent : Option (List Nat)
  error : Option PyErr
deriving DecidableEq

/-- Clamping `max(0, min(x, 255))` applied to every payload value. -/
def clamp_byte (x : Int) : Nat := (max 0 (min x 255)).toNat

/-- Embedding of `RoombaOI.send_command(command, extra)`.  `writeOk`
models whether the transport write `comm_device.send(bytes(payload))`
completes without raising.  Control flow, in source order: the mode
check raises `ValueError` before any payload is built; building the
payload raises `TypeError` when `extra` is a bare int (this happens
before the `try` block, so it propagates); inside the `try`, a failed
write is swallowed by `except: pass` and the mode update is skipped;
on a successful write, `current_mode` becomes `command.value[1]` unless
that is the `NoChange` sentinel. -/
def RoombaOI.send_command (s : RoombaOI) (command : Command) (extra : Extra)
    (writeOk : Bool) : SendResult :=
  if s.current_mode ∈ command.allowed_modes then
    match extra.tail_bytes with
    | Option.none => ⟨s, Option.none, Option.some PyErr.typeError⟩
    | Option.some tail =>
      let payload : List Nat := ((command.opcode : Int) :: tail).map clamp_byte
      if writeOk then
        ⟨⟨if command.new_mode = Mode.NoChange then s.current_mode
          else command.new_mode, s.baudrate⟩,
         Option.some payload, Option.none⟩
      else
        ⟨s, Option.some payload, Option.none⟩
  else
    ⟨s, Option.none, Option.some (PyErr.modeViolation command s.current_mode)⟩

/-- Embedding of `RoombaOI.__init__(comm_device)`: the session starts
with `current_mode = Mode.Off` and immediately issues `Command.Start`;
`baudrate` is the transport's initial baud-rate property. -/
def RoombaOI.init (baudrate : Nat) (writeOk : Bool) : SendResult :=
  RoombaOI.send_command ⟨Mode.Off, baudrate⟩ Command.Start Extra.none writeOk

/-- Embedding of `RoombaOI.set_mode(new_mode)`: dispatches to the
primitive command for the target mode, raising `ValueError` on anything
else (only the `NoChange` sentinel, for this `Mode` type). -/
def RoombaOI.set_mode (s : RoombaOI) (new_mode : Mode) (writeOk : Bool) : SendResult :=
  match new_mode with
  | Mode.Passive => s.send_command Command.Start Extra.none writeOk
  | Mode.Safe => s.send_command Command.Safe Extra.none writeOk
  | Mode.Full => s.send_command Command.Full Extra.none writeOk
  | Mode.Off => s.send_command Command.Power Extra.none writeOk
  | Mode.NoChange => ⟨s, Option.none, Option.some PyErr.invalidMode⟩

/-- Embedding of `RoombaOI.set_baud_rate(baud_rate)`: the source calls
`send_command(Command.Baud, baud_rate.value)`, passing the bare int
`baud_rate.value` as `extra`; the assignment
`self.comm_device.baudrate = baud_rate.value` runs only if that call
returns without raising. -/
def RoombaOI.set_baud_rate (s : RoombaOI) (baud_rate : BaudRate) (writeOk : Bool) :
    SendResult :=
  let r := s.send_command Command.Baud (Extra.int (baud_rate.value : Int)) writeOk
  match r.error with
  | Option.some e => ⟨r.state, r.sent, Option.some e⟩
  | Option.none => ⟨⟨r.state.current_mode, baud_rate.value⟩, r.sent, Option.none⟩

/-- Hour-byte position of a weekday in the 15-byte schedule block: the
first component of the source's `weekday_index` dictionary entry. -/
def hour_pos : Weekday → Nat
  | .Sunday => 1
  | .Monday => 3
  | .Tuesday => 5
  | .Wednesday => 7
  | .Thursday => 9
  | .Friday => 11
  | .Saturday => 13

/-- Minute-byte position of a weekday in the 15-byte schedule block: the
second component of the source's `weekday_index` dictionary entry. -/
def minute_pos : Weekday → Nat
  | .Sunday => 2
  | .Monday => 4
  | .Tuesday => 6
  | .Wednesday => 8
  | .Thursday => 10
  | .Friday => 12
  | .Saturday => 14

/-- One iteration of the loop in `set_schedule`: set the weekday's bit in
`data_bytes[0]` and store `hour % 24` and `minute % 60` at the weekday's
reserved positions.  The source's guard `0 <= weekday <= 6` always holds
for a valid `Weekday`. -/
def apply_entry (data : List Nat) (e : Weekday × Int × Int) : List Nat :=
  let d0 := data.set 0 ((data.getD 0 0) ||| (1 <<< e.1.value))
  let d1 := d0.set (hour_pos e.1) (e.2.1 % 24).toNat
  d1.set (minute_pos e.1) (e.2.2 % 60).toNat

/-- The 15-byte `data_bytes` block built by `set_schedule` from the given
entries (`none` models calling `set_schedule()` with the argument
omitted, which leaves the block all zeros). -/
def schedule_block (schedules : Option (List (Weekday × Int × Int))) : List Nat :=
  (schedules.getD []).foldl apply_entry (List.replicate 15 0)

/-- Embedding of `RoombaOI.set_schedule(schedules)`. -/
def RoombaOI.set_schedule (s : RoombaOI)
    (schedules : Option (List (Weekday × Int × Int))) (writeOk : Bool) : SendResult :=
  s.send_command Command.Schedule
    (Extra.list ((schedule_block schedules).map Int.ofNat)) writeOk

/-- Embedding of the call `send_command(Weekday(weekday), [hour, minute])`
made by the source's `set_clock`: `send_command` immediately evaluates
`self.current_mode not in command.value[0]`, but a `Weekday`'s `value` is
a bare int, so Python raises `TypeError` before any other work; the
session is untouched and nothing reaches the transport. -/
def RoombaOI.send_command_weekday (s : RoombaOI) (_weekday : Weekday) (_extra : Extra) :
    SendResult :=
  ⟨s, Option.none, Option.some PyErr.typeError⟩

/-- Embedding of `RoombaOI.set_clock(weekday, hour, minute)`: normalizes
hour and minute, then makes the erroneous `send_command(Weekday(...))`
call. -/
def RoombaOI.set_clock (s : RoombaOI) (weekday : Weekday) (hour minute : Int) :
    SendResult :=
  let hour24 := hour % 24
  let minute60 := minute % 60
  s.send_command_weekday weekday (Extra.list [hour24, minute60])

/-- Embedding of `velocity.to_bytes(2, 'big')`: the big-endian byte pair
when the int is representable as an unsigned 16-bit value, `none` when
Python raises `OverflowError` (negative, or too large). -/
def int_to_bytes_2_be (n : Int) : Option (Nat × Nat) :=
  if 0 ≤ n ∧ n < 65536 then Option.some (n.toNat / 256, n.toNat % 256)
  else Option.none

/-- Embedding of `RoombaOI.drive(velocity, radius)`: clamp both inputs,
pick the encoding branch, and send the 4-byte block with `Command.Drive`.
A `none` from `int_to_bytes_2_be` is Python's `OverflowError`, raised
before `send_command` is reached. -/
def RoombaOI.drive (s : RoombaOI) (velocity radius : Int) (writeOk : Bool) : SendResult :=
  let v := min (max velocity (-500)) 500
  let r := min (max radius (-2000)) 2000
  let block : Option (List Int) :=
    if r = 0 ∧ v ≠ 0 then
      (int_to_bytes_2_be v).map (fun p => [(p.1 : Int), (p.2 : Int), 0x80, 0x00])
    else if v = 0 ∧ r > 0 then
      Option.some [0x01, 0xF4, 0x00, 0x01]
    else if v = 0 ∧ r < 0 then
      Option.some [0x01, 0xF4, 0xFF, 0xFF]
    else
      match int_to_bytes_2_be v, int_to_bytes_2_be r with
      | Option.some p, Option.some q =>
        Option.some [(p.1 : Int), (p.2 : Int), (q.1 : Int), (q.2 : Int)]
      | _, _ => Option.none
  match block with
  | Option.some data_bytes => s.send_command Command.Drive (Extra.list data_bytes) writeOk
  | Option.none => ⟨s, Option.none, Option.some PyErr.overflowError⟩

/-- Embedding of `RoombaOI.set_song(song_number, notes, durations)`. -/
def RoombaOI.set_song (s : RoombaOI) (song_number : Int) (notes durations : List Int)
    (writeOk : Bool) : SendResult :=
  if notes.length ≠ durations.length then ⟨s, Option.none, Option.some PyErr.lengthMismatch⟩
  else if notes.length = 0 then ⟨s, Option.none, Option.some PyErr.emptyInput⟩
  else if notes.length > 16 then ⟨s, Option.none, Option.some PyErr.tooManyNotes⟩
  else
    s.send_command Command.Song
      (Extra.list ([song_number, (notes.length : Int)] ++
        ((notes.zip durations).map (fun p => [p.1, p.2])).flatten)) writeOk

/-- Embedding of `RoombaOI.play_song(song_number)`. -/
def RoombaOI.play_song (s : RoombaOI) (song_number : Int) (writeOk : Bool) : SendResult :=
  let n := max 0 (min song_number 4)
  s.send_command Command.Play (Extra.list [n]) writeOk

/-- Values `send_command`'s `extra` argument takes in every non-buggy
call site of the source: the default `None` or a list of ints. -/
def Extra.ofOption : Option (List Int) → Extra
  | Option.none => Extra.none
  | Option.some xs => Extra.list xs

/-- States a `RoombaOI` session can be in: the state produced by
`__init__`, closed under every public method of the class, each with an
arbitrary transport outcome. -/
inductive Reachable : RoombaOI → Prop where
  | init (baudrate : Nat) (writeOk : Bool) :
      Reachable (RoombaOI.init baudrate writeOk).state
  | send (s : RoombaOI) (c : Command) (e : Extra) (w : Bool) :
      Reachable s → Reachable (s.send_command c e w).state
  | mode (s : RoombaOI) (m : Mode) (w : Bool) :
      Reachable s → Reachable (s.set_mode m w).state
  | baud (s : RoombaOI) (b : BaudRate) (w : Bool) :
      Reachable s → Reachable (s.set_baud_rate b w).state
  | sched (s : RoombaOI) (es : Option (List (Weekday × Int × Int))) (w : Bool) :
      Reachable s → Reachable (s.set_schedule es w).state
  | clock (s : RoombaOI) (wd : Weekday) (h m : Int) :
      Reachable s → Reachable (s.set_clock wd h m).state
  | driveStep (s : RoombaOI) (v r : Int) (w : Bool) :
      Reachable s → Reachable (s.drive v r w).state
  | song (s : RoombaOI) (n : Int) (notes durations : List Int) (w : Bool) :
      Reachable s → Reachable (s.set_song n notes durations w).state
  | play (s : RoombaOI) (n : Int) (w : Bool) :
      Reachable s → Reachable (s.play_song n w).state

/-! Helper lemmas shared by the claim theorems. -/

/-- Clamping is the identity on every catalog opcode. -/
theorem clamp_byte_opcode : ∀ c : Command, clamp_byte (c.opcode : Int) = c.opcode := by
  decide

/-- Bytes handed to the transport by a legal `send_command` call whose
`extra` is a list. -/
theorem sent_of_list (s : RoombaOI) (c : Command) (xs : List Int) (w : Bool)
    (h : s.current_mode ∈ c.allowed_modes) :
    (s.send_command c (Extra.list xs) w).sent =
      Option.some (((c.opcode : Int) :: xs).map clamp_byte) := by
  cases w <;> simp [RoombaOI.send_command, Extra.tail_bytes, h]

/-- Case analysis on what one `send_command` call does to the mode: either
it is untouched, or the write succeeded without an exception and the mode
became the command's catalog result mode. -/
theorem send_command_mode_cases (s : RoombaOI) (c : Command) (e : Extra) (w : Bool) :
    (s.send_command c e w).state.current_mode = s.current_mode ∨
    ((s.send_command c e w).state.current_mode = c.new_mode ∧
     c.new_mode ≠ Mode.NoChange ∧ w = true ∧
     (s.send_command c e w).error = Option.none ∧
     (s.send_command c e w).sent ≠ Option.none) := by
  by_cases h : s.current_mode ∈ c.allowed_modes
  · cases he : e.tail_bytes with
    | none => left; simp [RoombaOI.send_command, h, he]
    | some tail =>
      cases w with
      | false => left; simp [RoombaOI.send_command, h, he]
      | true =>
        by_cases hn : c.new_mode = Mode.NoChange
        · left; simp [RoombaOI.send_command, h, he, hn]
        · right; simp [RoombaOI.send_command, h, he, hn]
  · left; simp [RoombaOI.send_command, h]

/-- The mode after any `send_command` call is never the sentinel, provided
it was not before. -/
theorem send_command_not_sentinel (s : RoombaOI) (c : Command) (e : Extra) (w : Bool)
    (h : s.current_mode ≠ Mode.NoChange) :
    (s.send_command c e w).state.current_mode ≠ Mode.NoChange := by
  rcases send_command_mode_cases s c e w with h1 | h2
  · rw [h1]; exact h
  · rw [h2.1]; exact h2.2.1

/-- Sentinel-freedom is preserved by `set_mode`. -/
theorem set_mode_not_sentinel (s : RoombaOI) (m : Mode) (w : Bool)
    (h : s.current_mode ≠ Mode.NoChange) :
    (s.set_mode m w).state.current_mode ≠ Mode.NoChange := by
  cases m <;> first
    | exact send_command_not_sentinel _ _ _ _ h
    | exact h

/-- Sentinel-freedom is preserved by `set_baud_rate`. -/
theorem set_baud_rate_not_sentinel (s : RoombaOI) (b : BaudRate) (w : Bool)
    (h : s.current_mode ≠ Mode.NoChange) :
    (s.set_baud_rate b w).state.current_mode ≠ Mode.NoChange := by
  unfold RoombaOI.set_baud_rate
  cases he : (s.send_command Command.Baud (Extra.int (b.value : Int)) w).error <;>
    simp only [he] <;>
    exact send_command_not_sentinel s Command.Baud (Extra.int (b.value : Int)) w h

/-- Sentinel-freedom is preserved by `drive`. -/
theorem drive_not_sentinel (s : RoombaOI) (v r : Int) (w : Bool)
    (h : s.current_mode ≠ Mode.NoChange) :
    (s.drive v r w).state.current_mode ≠ Mode.NoChange := by
  unfold RoombaOI.drive
  dsimp only
  split
  · exact send_command_not_sentinel _ _ _ _ h
  · exact h

/-- Sentinel-freedom is preserved by `set_song`. -/
theorem set_song_not_sentinel (s : RoombaOI) (n : Int) (notes durations : List Int)
    (w : Bool) (h : s.current_mode ≠ Mode.NoChange) :
    (s.set_song n notes durations w).state.current_mode ≠ Mode.NoChange := by
  unfold RoombaOI.set_song
  split
  · exact h
  · split
    · exact h
    · split
      · exact h
      · exact send_command_not_sentinel _ _ _ _ h

/-- Every reachable session state has a real (non-sentinel) mode. -/
theorem reachable_not_sentinel : ∀ s : RoombaOI, Reachable s → s.current_mode ≠ Mode.NoChange := by
  intro s h
  induction h with
  | init b w => exact send_command_not_sentinel _ _ _ _ (fun hc => Mode.noConfusion hc)
  | send s c e w _ ih => exact send_command_not_sentinel _ _ _ _ ih
  | mode s m w _ ih => exact set_mode_not_sentinel _ _ _ ih
  | baud s b w _ ih => exact set_baud_rate_not_sentinel _ _ _ ih
  | sched s es w _ ih => exact send_command_not_sentinel _ _ _ _ ih
  | clock s wd hh mm _ ih => exact ih
  | driveStep s v r w _ ih => exact drive_not_sentinel _ _ _ _ ih
  | song s n notes durations w _ ih => exact set_song_not_sentinel _ _ _ _ _ ih
  | play s n w _ ih => exact send_command_not_sentinel _ _ _ _ ih

/-! The claim theorems. -/

/-- C1: in every reachable session state the current mode is one of Off,
Passive, Safe, or Full and never the NoChange sentinel; and in any
`send_command` step the mode field changes only when the transport write
completed without error (the write succeeded, no exception was raised,
and a payload was handed to the transport), and then only to that
command's catalog result mode. -/
theorem mode_invariant :
    (∀ s : RoombaOI, Reachable s →
        s.current_mode ∈ [Mode.Off, Mode.Passive, Mode.Safe, Mode.Full] ∧
        s.current_mode ≠ Mode.NoChange) ∧
    (∀ (s : RoombaOI) (c : Command) (e : Extra) (w : Bool),
        (s.send_command c e w).state.current_mode ≠ s.current_mode →
          w = true ∧ (s.send_command c e w).error = Option.none ∧
          (s.send_command c e w).sent ≠ Option.none ∧
          (s.send_command c e w).state.current_mode = c.new_mode ∧
          c.new_mode ≠ Mode.NoChange) := by
  constructor
  · intro s hs
    have h := reachable_not_sentinel s hs
    refine ⟨?_, h⟩
    cases hm : s.current_mode <;> simp_all
  · intro s c e w hne
    rcases send_command_mode_cases s c e w with h1 | h2
    · exact absurd h1 hne
    · exact ⟨h2.2.2.1, h2.2.2.2.1, h2.2.2.2.2, h2.1, h2.2.1⟩

/-- Witness for C1 at the freshly constructed session (a successful
`Start` from Off) and at a concrete mode-changing step. -/
theorem mode_invariant_witness :
    ((RoombaOI.init 0 true).state.current_mode ∈
        [Mode.Off, Mode.Passive, Mode.Safe, Mode.Full] ∧
     (RoombaOI.init 0 true).state.current_mode ≠ Mode.NoChange) ∧
    (true = true ∧
     ((⟨Mode.Off, 0⟩ : RoombaOI).send_command Command.Start Extra.none true).error =
        Option.none ∧
     ((⟨Mode.Off, 0⟩ : RoombaOI).send_command Command.Start Extra.none true).sent ≠
        Option.none ∧
     ((⟨Mode.Off, 0⟩ : RoombaOI).send_command Command.Start Extra.none true).state.current_mode =
        Command.Start.new_mode ∧
     Command.Start.new_mode ≠ Mode.NoChange) :=
  ⟨mode_invariant.1 _ (Reachable.init 0 true),
   mode_invariant.2 ⟨Mode.Off, 0⟩ Command.Start Extra.none true (by decide)⟩

/-- C2: a command issued in a mode outside its allowed list raises
`ValueError` carrying the command and the current mode, hands nothing to
the transport, and leaves the session state unchanged. -/
theorem send_command_mode_violation (s : RoombaOI) (c : Command) (e : Extra) (w : Bool)
    (h : s.current_mode ∉ c.allowed_modes) :
    s.send_command c e w =
      ⟨s, Option.none, Option.some (PyErr.modeViolation c s.current_mode)⟩ := by
  simp [RoombaOI.send_command, h]

/-- Witness for C2: `Command.Drive` is illegal in Off mode. -/
theorem send_command_mode_violation_witness :
    (⟨Mode.Off, 0⟩ : RoombaOI).current_mode ∉ Command.Drive.allowed_modes ∧
    (⟨Mode.Off, 0⟩ : RoombaOI).send_command Command.Drive Extra.none true =
      ⟨⟨Mode.Off, 0⟩, Option.none,
       Option.some (PyErr.modeViolation Command.Drive Mode.Off)⟩ :=
  ⟨by decide, send_command_mode_violation _ _ _ _ (by decide)⟩

/-- C3: for a command legal in the current mode, a transport write that
raises is swallowed (no exception reaches the caller) and the session
state, its mode in particular, is unchanged. -/
theorem write_failure_swallowed (s : RoombaOI) (c : Command) (xs : Option (List Int))
    (h : s.current_mode ∈ c.allowed_modes) :
    (s.send_command c (Extra.ofOption xs) false).error = Option.none ∧
    (s.send_command c (Extra.ofOption xs) false).state = s := by
  cases xs <;> simp [RoombaOI.send_command, Extra.ofOption, Extra.tail_bytes, h]

/-- Witness for C3: a failed `Start` write from Passive mode. -/
theorem write_failure_swallowed_witness :
    (⟨Mode.Passive, 0⟩ : RoombaOI).current_mode ∈ Command.Start.allowed_modes ∧
    ((⟨Mode.Passive, 0⟩ : RoombaOI).send_command Command.Start
        (Extra.ofOption Option.none) false).error = Option.none ∧
    ((⟨Mode.Passive, 0⟩ : RoombaOI).send_command Command.Start
        (Extra.ofOption Option.none) false).state = ⟨Mode.Passive, 0⟩ :=
  ⟨by decide, (write_failure_swallowed _ _ _ (by decide)).1,
   (write_failure_swallowed _ _ _ (by decide)).2⟩

/-- C4: a legal `send_command` hands the transport exactly the opcode
byte followed by the clamped extra bytes - the catalog's zero-filled
template plays no part - and clamping sends negatives to 0, values above
255 to 255, and fixes bytes already in range. -/
theorem payload_exact (s : RoombaOI) (c : Command) (xs : List Int) (w : Bool)
    (h : s.current_mode ∈ c.allowed_modes) :
    (s.send_command c (Extra.list xs) w).sent =
      Option.some (c.opcode :: xs.map clamp_byte) ∧
    (∀ x : Int, x < 0 → clamp_byte x = 0) ∧
    (∀ x : Int, 255 < x → clamp_byte x = 255) ∧
    (∀ x : Int, 0 ≤ x → x ≤ 255 → (clamp_byte x : Int) = x) := by
  refine ⟨?_, ?_, ?_, ?_⟩
  · rw [sent_of_list s c xs w h]
    simp [clamp_byte_opcode]
  · intro x hx; simp only [clamp_byte]; omega
  · intro x hx; simp only [clamp_byte]; omega
  · intro x h0 h255; simp only [clamp_byte]; omega

/-- Witness for C4: a `Start` with out-of-range extras from Passive. -/
theorem payload_exact_witness :
    (⟨Mode.Passive, 0⟩ : RoombaOI).current_mode ∈ Command.Start.allowed_modes ∧
    ((⟨Mode.Passive, 0⟩ : RoombaOI).send_command Command.Start
        (Extra.list [300, -5]) true).sent =
      Option.some (Command.Start.opcode :: [(300 : Int), -5].map clamp_byte) :=
  ⟨by decide, (payload_exact _ _ _ _ (by decide)).1⟩

/-- C5 failing input: `drive(-100, 0)` from Safe mode raises
`OverflowError` inside `velocity.to_bytes(2, 'big')`, hands nothing to
the transport, and never reaches `send_command`; the claim instead
promises a big-endian velocity encoding for every velocity in
`[-500, 500]`. -/
theorem drive_negative_velocity_overflow :
    (⟨Mode.Safe, 0⟩ : RoombaOI).drive (-100) 0 true =
      ⟨⟨Mode.Safe, 0⟩, Option.none, Option.some PyErr.overflowError⟩ := by
  decide

/-- C6 counterexample: `drive(0, 0)` does not transmit the straight-drive
sentinel block `00 00 80 00` after the Drive opcode. -/
theorem drive_zero_zero_counterexample :
    ((⟨Mode.Safe, 0⟩ : RoombaOI).drive 0 0 true).sent ≠
      Option.some [137, 0x00, 0x00, 0x80, 0x00] := by
  decide

/-- C6 amended: `drive(0, 0)` falls into the final default branch, which
big-endian-encodes the radius itself, so the argument block is
`00 00 00 00` (not the `80 00` radius sentinel). -/
theorem drive_zero_zero_default_branch (s : RoombaOI) (w : Bool)
    (h : s.current_mode ∈ Command.Drive.allowed_modes) :
    (s.drive 0 0 w).sent = Option.some [137, 0, 0, 0, 0] := by
  have hb : s.drive 0 0 w =
      s.send_command Command.Drive (Extra.list [0, 0, 0, 0]) w := rfl
  rw [hb, sent_of_list s Command.Drive [0, 0, 0, 0] w h]
  decide

/-- Witness for C6 amended, from Safe mode. -/
theorem drive_zero_zero_default_branch_witness :
    (⟨Mode.Safe, 0⟩ : RoombaOI).current_mode ∈ Command.Drive.allowed_modes ∧
    ((⟨Mode.Safe, 0⟩ : RoombaOI).drive 0 0 true).sent =
      Option.some [137, 0, 0, 0, 0] :=
  ⟨by decide, drive_zero_zero_default_branch _ _ (by decide)⟩

/-- C7 counterexample: from Safe mode a successful Power command leaves
the session's mode Passive, not Off. -/
theorem power_result_mode_counterexample :
    ((⟨Mode.Safe, 0⟩ : RoombaOI).send_command Command.Power Extra.none true).error =
      Option.none ∧
    ((⟨Mode.Safe, 0⟩ : RoombaOI).send_command Command.Power Extra.none
        true).state.current_mode = Mode.Passive ∧
    Mode.Passive ≠ Mode.Off := by
  decide

/-- C7 amended: from every powered mode, `set_mode(Off)` delegates to the
Power primitive, and successfully issuing Power sets the session's
current mode to the catalog result mode Passive (not Off). -/
theorem power_enters_passive (s : RoombaOI) (w : Bool)
    (h : s.current_mode ∈ [Mode.Passive, Mode.Safe, Mode.Full]) :
    s.set_mode Mode.Off w = s.send_command Command.Power Extra.none w ∧
    (s.send_command Command.Power Extra.none true).state.current_mode = Mode.Passive ∧
    (s.send_command Command.Power Extra.none true).error = Option.none := by
  have hall : s.current_mode ∈ Command.Power.allowed_modes := h
  refine ⟨rfl, ?_, ?_⟩ <;>
    simp [RoombaOI.send_command, Extra.tail_bytes, hall, Command.new_mode]

/-- Witness for C7 amended, from Safe mode. -/
theorem power_enters_passive_witness :
    (⟨Mode.Safe, 0⟩ : RoombaOI).current_mode ∈ [Mode.Passive, Mode.Safe, Mode.Full] ∧
    ((⟨Mode.Safe, 0⟩ : RoombaOI).set_mode Mode.Off true =
      (⟨Mode.Safe, 0⟩ : RoombaOI).send_command Command.Power Extra.none true ∧
     ((⟨Mode.Safe, 0⟩ : RoombaOI).send_command Command.Power Extra.none
        true).state.current_mode = Mode.Passive ∧
     ((⟨Mode.Safe, 0⟩ : RoombaOI).send_command Command.Power Extra.none true).error =
        Option.none) :=
  ⟨by decide, power_enters_passive _ true (by decide)⟩

/-- C8 divergence: `set_clock` passes `Weekday(weekday)` where a
`Command` is expected, so every call raises `TypeError` before any byte
is built; the SetClock opcode 168 is never transmitted and the session is
untouched. -/
theorem set_clock_raises_type_error (s : RoombaOI) (wd : Weekday) (hour minute : Int) :
    s.set_clock wd hour minute = ⟨s, Option.none, Option.some PyErr.typeError⟩ := rfl

/-- C9 divergence: `set_baud_rate` passes the bare int `baud_rate.value`
as `extra`, so `payload.extend` raises `TypeError` (after the mode check,
which can itself raise `ValueError`); nothing is handed to the transport,
the transport's baudrate property keeps its old value, and an exception
always propagates. -/
theorem set_baud_rate_raises_type_error (s : RoombaOI) (b : BaudRate) (w : Bool) :
    (s.set_baud_rate b w).sent = Option.none ∧
    (s.set_baud_rate b w).state = s ∧
    (s.set_baud_rate b w).error ≠ Option.none := by
  by_cases h : s.current_mode ∈ Command.Baud.allowed_modes <;>
    simp [RoombaOI.set_baud_rate, RoombaOI.send_command, Extra.tail_bytes, h]

/-! Helper lemmas about the schedule block. -/

/-- Finite facts about the weekday byte positions: positions lie in
`[1, 14]`, hour and minute positions never collide, distinct weekdays get
distinct positions, and the numeric weekday value is injective and at
most 6. -/
theorem pos_facts : ∀ w w' : Weekday,
    hour_pos w ≠ 0 ∧ minute_pos w ≠ 0 ∧ hour_pos w < 15 ∧ minute_pos w < 15 ∧
    hour_pos w ≠ minute_pos w' ∧ (w ≠ w' → hour_pos w ≠ hour_pos w') ∧
    (w ≠ w' → minute_pos w ≠ minute_pos w') ∧ w.value ≤ 6 ∧
    (w.value = w'.value → w = w') := by
  decide

/-- Applying a schedule entry preserves the block length. -/
theorem apply_entry_length (d : List Nat) (e : Weekday × Int × Int) :
    (apply_entry d e).length = d.length := by
  simp [apply_entry, List.length_set]

/-- Folding schedule entries preserves the block length. -/
theorem fold_length (es : List (Weekday × Int × Int)) (d : List Nat) :
    (es.foldl apply_entry d).length = d.length := by
  induction es generalizing d with
  | nil => rfl
  | cons e es ih => rw [List.foldl_cons, ih, apply_entry_length]

/-- Applying a schedule entry ORs the weekday's bit into byte 0. -/
theorem apply_entry_getD_zero (d : List Nat) (e : Weekday × Int × Int)
    (hd : 0 < d.length) :
    (apply_entry d e).getD 0 0 = (d.getD 0 0) ||| (1 <<< e.1.value) := by
  have h1 : minute_pos e.1 ≠ 0 := (pos_facts e.1 e.1).2.1
  have h2 : hour_pos e.1 ≠ 0 := (pos_facts e.1 e.1).1
  simp [apply_entry, List.getD_eq_getElem?_getD, List.getElem?_set_ne h1,
    List.getElem?_set_ne h2, List.getElem?_set_self hd]

/-- Applying a schedule entry stores the normalized hour and minute at
the entry's weekday positions. -/
theorem apply_entry_getD_own (d : List Nat) (e : Weekday × Int × Int)
    (hd : d.length = 15) :
    (apply_entry d e).getD (hour_pos e.1) 0 = (e.2.1 % 24).toNat ∧
    (apply_entry d e).getD (minute_pos e.1) 0 = (e.2.2 % 60).toNat := by
  have hmh : minute_pos e.1 ≠ hour_pos e.1 := Ne.symm (pos_facts e.1 e.1).2.2.2.2.1
  have hh15 : hour_pos e.1 < 15 := (pos_facts e.1 e.1).2.2.1
  have hm15 : minute_pos e.1 < 15 := (pos_facts e.1 e.1).2.2.2.1
  constructor
  · simp [apply_entry, List.getD_eq_getElem?_getD, List.getElem?_set_ne hmh,
      List.getElem?_set_self, List.length_set, hd, hh15]
  · simp [apply_entry, List.getD_eq_getElem?_getD, List.getElem?_set_self,
      List.length_set, hd, hm15]

/-- Applying a schedule entry leaves the bytes of every other weekday
untouched. -/
theorem apply_entry_getD_other (d : List Nat) (e : Weekday × Int × Int) (w : Weekday)
    (hne : e.1 ≠ w) :
    (apply_entry d e).getD (hour_pos w) 0 = d.getD (hour_pos w) 0 ∧
    (apply_entry d e).getD (minute_pos w) 0 = d.getD (minute_pos w) 0 := by
  have h1 : minute_pos e.1 ≠ hour_pos w := Ne.symm (pos_facts w e.1).2.2.2.2.1
  have h2 : hour_pos e.1 ≠ hour_pos w := (pos_facts e.1 w).2.2.2.2.2.1 hne
  have h3 : (0 : Nat) ≠ hour_pos w := Ne.symm (pos_facts w w).1
  have h4 : minute_pos e.1 ≠ minute_pos w := (pos_facts e.1 w).2.2.2.2.2.2.1 hne
  have h5 : hour_pos e.1 ≠ minute_pos w := (pos_facts e.1 w).2.2.2.2.1
  have h6 : (0 : Nat) ≠ minute_pos w := Ne.symm (pos_facts w w).2.1
  constructor <;>
    simp [apply_entry, List.getD_eq_getElem?_getD, List.getElem?_set_ne h1,
      List.getElem?_set_ne h2, List.getElem?_set_ne h3, List.getElem?_set_ne h4,
      List.getElem?_set_ne h5, List.getElem?_set_ne h6]

/-- Byte 0 of the folded block is the OR-fold of the weekday bits. -/
theorem fold_getD_zero (es : List (Weekday × Int × Int)) (d : List Nat)
    (hd : 0 < d.length) :
    (es.foldl apply_entry d).getD 0 0 =
      es.foldl (fun a e => a ||| (1 <<< e.1.value)) (d.getD 0 0) := by
  induction es generalizing d with
  | nil => rfl
  | cons e es ih =>
    rw [List.foldl_cons, List.foldl_cons,
      ih (apply_entry d e) (by rw [apply_entry_length]; exact hd),
      apply_entry_getD_zero d e hd]

/-- Bit `k` of the OR-fold of the weekday bits. -/
theorem mask_testBit (es : List (Weekday × Int × Int)) (a k : Nat) :
    Nat.testBit (es.foldl (fun acc e => acc ||| (1 <<< e.1.value)) a) k =
      (Nat.testBit a k || es.any (fun e => decide (e.1.value = k))) := by
  induction es generalizing a with
  | nil => simp
  | cons e es ih =>
    rw [List.foldl_cons, ih]
    simp [Nat.testBit_or, Nat.shiftLeft_eq, Nat.testBit_two_pow, Bool.or_assoc]

/-- Folding entries that never mention weekday `w` leaves the bytes of
`w` untouched. -/
theorem fold_getD_other (es : List (Weekday × Int × Int)) (d : List Nat) (w : Weekday)
    (hw : w ∉ es.map Prod.fst) :
    (es.foldl apply_entry d).getD (hour_pos w) 0 = d.getD (hour_pos w) 0 ∧
    (es.foldl apply_entry d).getD (minute_pos w) 0 = d.getD (minute_pos w) 0 := by
  induction es generalizing d with
  | nil => exact ⟨rfl, rfl⟩
  | cons e es ih =>
    simp only [List.map_cons, List.mem_cons, not_or] at hw
    obtain ⟨hne, hw2⟩ := hw
    rw [List.foldl_cons]
    have happ := apply_entry_getD_other d e w (fun hc => hne hc.symm)
    rcases ih (apply_entry d e) hw2 with ⟨ihh, ihm⟩
    exact ⟨ihh.trans happ.1, ihm.trans happ.2⟩

/-- When the weekdays in the entry list are pairwise distinct, each
entry's hour and minute end up at its weekday's positions. -/
theorem fold_getD_own (es : List (Weekday × Int × Int)) (d : List Nat)
    (hd : d.length = 15) (hnodup : (es.map Prod.fst).Nodup) :
    ∀ e ∈ es, (es.foldl apply_entry d).getD (hour_pos e.1) 0 = (e.2.1 % 24).toNat ∧
      (es.foldl apply_entry d).getD (minute_pos e.1) 0 = (e.2.2 % 60).toNat := by
  induction es generalizing d with
  | nil => intro e he; cases he
  | cons e1 es ih =>
    intro e he
    simp only [List.map_cons, List.nodup_cons] at hnodup
    obtain ⟨hnotin, hnd⟩ := hnodup
    rcases List.mem_cons.mp he with rfl | hes
    · rw [List.foldl_cons]
      have habs := fold_getD_other es (apply_entry d e) e.1 hnotin
      have happ := apply_entry_getD_own d e hd
      exact ⟨habs.1.trans happ.1, habs.2.trans happ.2⟩
    · rw [List.foldl_cons]
      exact ih (apply_entry d e1) (by rw [apply_entry_length]; exact hd) hnd e hes

/-- Reading any position of a list of bounded bytes stays bounded. -/
theorem getD_lt_of_forall (d : List Nat) (n : Nat) (hd : ∀ b ∈ d, b < 256) :
    d.getD n 0 < 256 := by
  rw [List.getD_eq_getElem?_getD]
  cases h : d[n]? with
  | none => simp
  | some b => simpa using hd b (List.getElem?_mem h)

/-- All bytes of the folded block stay below 256. -/
theorem fold_getD_bound (es : List (Weekday × Int × Int)) (d : List Nat)
    (hd : ∀ b ∈ d, b < 256) : ∀ b ∈ es.foldl apply_entry d, b < 256 := by
  induction es generalizing d with
  | nil => exact hd
  | cons e es ih =>
    rw [List.foldl_cons]
    refine ih (apply_entry d e) ?_
    have hbit : ∀ w : Weekday, (1 <<< w.value) < 256 := by decide
    intro b hb
    unfold apply_entry at hb
    rcases List.mem_or_eq_of_mem_set hb with hb | rfl
    · rcases List.mem_or_eq_of_mem_set hb with hb | rfl
      · rcases List.mem_or_eq_of_mem_set hb with hb | rfl
        · exact hd b hb
        · have h256 : (256 : Nat) = 2 ^ 8 := by norm_num
          rw [h256]
          exact Nat.or_lt_two_pow (h256 ▸ getD_lt_of_forall d 0 hd) (h256 ▸ hbit e.1)
      · have h1 : 0 ≤ e.2.1 % 24 := Int.emod_nonneg e.2.1 (by norm_num)
        have h2 : e.2.1 % 24 < 24 := Int.emod_lt_of_pos e.2.1 (by norm_num)
        omega
    · have h1 : 0 ≤ e.2.2 % 60 := Int.emod_nonneg e.2.2 (by norm_num)
      have h2 : e.2.2 % 60 < 60 := Int.emod_lt_of_pos e.2.2 (by norm_num)
      omega

/-- Reading the all-zero block yields zero at every position. -/
theorem replicate_getD (n p : Nat) : (List.replicate n (0 : Nat)).getD p 0 = 0 := by
  rw [List.getD_eq_getElem?_getD, List.getElem?_replicate]
  split <;> rfl

/-- Clamping after casting is the identity on a list of in-range bytes. -/
theorem map_clamp_cast (l : List Nat) (hl : ∀ b ∈ l, b < 256) :
    (l.map Int.ofNat).map clamp_byte = l := by
  induction l with
  | nil => rfl
  | cons b l ih =>
    rw [List.map_cons, List.map_cons]
    have hb : b < 256 := hl b (List.mem_cons_self b l)
    have hc : clamp_byte (Int.ofNat b) = b := by
      simp only [clamp_byte, Int.ofNat_eq_natCast]; omega
    rw [hc, ih (fun x hx => hl x (List.mem_cons_of_mem _ hx))]

/-- C10: for entries with pairwise-distinct weekdays, `set_schedule`
builds a 15-byte block whose byte 0 has bit `i` set exactly for the
weekdays present, whose two reserved bytes per present weekday hold
(hour mod 24, minute mod 60), and whose bytes for absent weekdays stay
zero; the omitted-argument call builds the same all-zero block as the
empty list, and the block is sent with the Schedule command (opcode
167). -/
theorem set_schedule_block_correct (entries : List (Weekday × Int × Int))
    (hnodup : (entries.map Prod.fst).Nodup) :
    (schedule_block (Option.some entries)).length = 15 ∧
    (∀ w : Weekday,
        Nat.testBit ((schedule_block (Option.some entries)).getD 0 0) w.value = true ↔
          w ∈ entries.map Prod.fst) ∧
    (∀ e ∈ entries,
        (schedule_block (Option.some entries)).getD (hour_pos e.1) 0 =
          (e.2.1 % 24).toNat ∧
        (schedule_block (Option.some entries)).getD (minute_pos e.1) 0 =
          (e.2.2 % 60).toNat) ∧
    (∀ w : Weekday, w ∉ entries.map Prod.fst →
        (schedule_block (Option.some entries)).getD (hour_pos w) 0 = 0 ∧
        (schedule_block (Option.some entries)).getD (minute_pos w) 0 = 0) ∧
    schedule_block Option.none = schedule_block (Option.some []) ∧
    (∀ (s : RoombaOI) (wr : Bool), s.current_mode ∈ Command.Schedule.allowed_modes →
        (s.set_schedule (Option.some entries) wr).sent =
          Option.some (167 :: schedule_block (Option.some entries))) := by
  have hblock : schedule_block (Option.some entries) =
      entries.foldl apply_entry (List.replicate 15 0) := rfl
  refine ⟨?_, ?_, ?_, ?_, rfl, ?_⟩
  · rw [hblock, fold_length]; simp
  · intro w
    rw [hblock, fold_getD_zero _ _ (by simp), replicate_getD, mask_testBit,
      Nat.zero_testBit, Bool.false_or, List.any_eq_true]
    constructor
    · rintro ⟨e, he, hv⟩
      exact List.mem_map.mpr
        ⟨e, he, (pos_facts e.1 w).2.2.2.2.2.2.2.2 (by simpa using hv)⟩
    · intro hm
      rcases List.mem_map.mp hm with ⟨e, he, rfl⟩
      exact ⟨e, he, by simp⟩
  · rw [hblock]
    exact fold_getD_own entries _ (by simp) hnodup
  · intro w hw
    have h := fold_getD_other entries (List.replicate 15 0) w hw
    rw [replicate_getD, replicate_getD] at h
    rw [hblock]
    exact h
  · intro s wr hmode
    have hbound : ∀ b ∈ schedule_block (Option.some entries), b < 256 := by
      rw [hblock]
      refine fold_getD_bound entries _ ?_
      intro b hb
      rcases (List.mem_replicate.mp hb) with ⟨_, rfl⟩
      norm_num
    have h167 : clamp_byte ((Command.Schedule.opcode : Nat) : Int) = 167 :=
      clamp_byte_opcode Command.Schedule
    rw [RoombaOI.set_schedule, sent_of_list _ _ _ _ hmode, List.map_cons,
      map_clamp_cast _ hbound, h167]

/-- Witness for C10 at the spec's example schedule (Wednesday 15:00,
Saturday 10:45) from Passive mode. -/
theorem set_schedule_block_correct_witness :
    (([(Weekday.Wednesday, (15 : Int), (0 : Int)),
       (Weekday.Saturday, (10 : Int), (45 : Int))].map Prod.fst).Nodup) ∧
    ((⟨Mode.Passive, 0⟩ : RoombaOI).set_schedule
        (Option.some [(Weekday.Wednesday, 15, 0), (Weekday.Saturday, 10, 45)])
        true).sent =
      Option.some (167 :: schedule_block
        (Option.some [(Weekday.Wednesday, 15, 0), (Weekday.Saturday, 10, 45)])) :=
  ⟨by decide,
   (set_schedule_block_correct _ (by decide)).2.2.2.2.2 _ _ (by decide)⟩

end Roomba
